import Mathlib

/-!
# Verification of the emotion-detector web application

Shallow embedding of `app.py` and `helpers.py` of the `emotion_detector`
repository.  Request handlers become pure Lean functions over an explicit
`Session` state; the external collaborators (the DeepFace analysis call,
the ollama chat call, the filesystem and cv2) are modelled as per-request
oracles gathered in an `Env` record.  Python floats are modelled as
rationals, exceptions as `Except Unit`.
-/

namespace EmotionDetector

/-- A pixel rectangle, as produced by the detector (`face_data['region']`). -/
structure Box where
  x : Int
  y : Int
  w : Int
  h : Int
deriving DecidableEq, Repr

/-- One element of the list returned by `DeepFace.analyze`:
a region, a dominant-emotion tag and the per-label confidence map
(`face_data['emotion']`, modelled as a function from labels to scores). -/
structure FaceData where
  region : Box
  dominant_emotion : String
  emotion : String → ℚ

/-- The dictionary built by `recognize_emotion` in `helpers.py`:
bounding box, emotion label and confidence score. -/
structure EmotionResult where
  box : Box
  label : String
  confidence : ℚ
deriving Repr

/-- `recognize_emotion` from `helpers.py` (lines 8-37).
`img_path is None` yields `None`; otherwise `DeepFace.analyze` is invoked
(modelled by the `analyze` oracle, `.error` standing for a raised
exception) and the first element of its result list is unpacked
(`results[0]`, an `IndexError` — hence `.error` — on an empty list). -/
def recognize_emotion (img_path : Option String)
    (analyze : String → Except Unit (List FaceData)) :
    Except Unit (Option EmotionResult) :=
  match img_path with
  | none => .ok none
  | some p =>
    match analyze p with
    | .error e => .error e
    | .ok results =>
      match results with
      | [] => .error ()
      | face_data :: _ =>
        .ok (some { box := face_data.region,
                    label := face_data.dominant_emotion,
                    confidence := face_data.emotion face_data.dominant_emotion })

/-- The apostrophe character, used inside the prompt template of
`generate_mood_content` (ASCII 39). -/
def apos : String := String.singleton (Char.ofNat 39)

/-- Python `f"{q:.1f}"`: the rational rendered with one decimal digit. -/
def fmt1 (q : ℚ) : String :=
  let n : Int := round (q * 10)
  let sign := if n < 0 then "-" else ""
  sign ++ toString (n.natAbs / 10) ++ "." ++ toString (n.natAbs % 10)

/-- The user prompt built by `generate_mood_content` in `helpers.py`
(line 52), an exact character-for-character rendering of the Python
f-string (the literal is concatenated from smaller pieces; `apos` is the
apostrophe). -/
def mood_prompt (emotion_label : String) (confidence : ℚ) : String :=
  "The detected emotion is " ++ emotion_label ++
  ". Suggest a " ++ "3-song playlist" ++
  " that matches it. Start by saying: " ++ apos ++
  "Tonight" ++ apos ++ "s vibe is " ++ emotion_label ++ ". I" ++ apos ++ "m " ++
  fmt1 confidence ++
  "% sure about it... (here give a " ++ "short description of the mood" ++
  ")... For that reason, here are some songs to match the mood." ++
  apos ++
  " and then give the playlist you suggest. " ++
  "No final questions or suggestions."

/-- The system message passed to `ollama.chat` (helpers.py line 58). -/
def system_message : String :=
  "You are a professional music curator and psychologist."

/-- One invocation of the ollama chat adapter: model identifier, the two
messages, and the sampling temperature from the options dictionary. -/
structure ChatCall where
  model : String
  systemContent : String
  userContent : String
  temperature : ℚ
deriving Repr

/-- `generate_mood_content` from `helpers.py` (lines 39-66).  The `chat`
oracle stands for `ollama.chat` (`none` = a raised exception).  The second
component records the adapter invocations the function performs, in
order. -/
def generate_mood_content (emotion_label : String) (confidence : ℚ)
    (chat : ChatCall → Option String) :
    Except Unit String × List ChatCall :=
  let prompt := mood_prompt emotion_label confidence
  let call : ChatCall :=
    { model := "gemma3:1b",
      systemContent := system_message,
      userContent := prompt,
      temperature := 7/10 }
  match chat call with
  | none => (.error (), [call])
  | some response => (.ok response, [call])

/-- One recorded detection (`history_entry` in app.py lines 140-144). -/
structure HistoryEntry where
  emotion : String
  confidence : ℚ
  filename : String
deriving DecidableEq, Repr

/-- The Flask session dictionary, restricted to the two keys the app uses.
`none` models the key being absent. -/
structure Session where
  username : Option String
  emotion_history : Option (List HistoryEntry)
deriving DecidableEq, Repr

/-- `ALLOWED_EXTENSIONS` (app.py line 23). -/
def ALLOWED_EXTENSIONS : List String := ["png", "jpg", "jpeg", "gif", "bmp"]

/-- Python `filename.rsplit('.', 1)[1]`: the text after the last dot
(when no dot occurs, the whole string — `allowed_file` only uses it
guarded by the dot test). -/
def lastDotSegment (filename : String) : String :=
  String.mk (filename.data.reverse.takeWhile (fun c => !(c == Char.ofNat 46))).reverse

/-- Python `str.lower()`, restricted to ASCII as `Char.toLower` is. -/
def lowerAscii (s : String) : String :=
  String.mk (s.data.map Char.toLower)

/-- `allowed_file` (app.py lines 26-28): Python
`'.' in filename and filename.rsplit('.', 1)[1].lower() in ALLOWED_EXTENSIONS`. -/
def allowed_file (filename : String) : Bool :=
  filename.data.contains (Char.ofNat 46) &&
    ALLOWED_EXTENSIONS.contains (lowerAscii (lastDotSegment filename))

/-- The parts of a `/api/process-emotion` request the handler inspects:
whether the multipart field `image` is present, and the claimed filename of
the uploaded file. -/
structure Request where
  hasImage : Bool
  filename : String
deriving DecidableEq, Repr

/-- The per-request behaviour of the external world as seen by
`process_emotion`: the unique temp path chosen for this request, whether
`file.save` succeeds, the `DeepFace.analyze` oracle, the `ollama.chat`
oracle, whether `cv2.imread` returns an image, the base64 text the
annotated image encodes to, the `datetime.now()` timestamp string, and
whether the `os.remove` in the finally block succeeds. -/
structure Env where
  tempPath : String
  saveOk : Bool
  analyze : String → Except Unit (List FaceData)
  chat : ChatCall → Option String
  imreadOk : Bool
  imgBase64 : String
  timestamp : String
  removeOk : Bool

/-- The JSON responses `/api/process-emotion` can produce. -/
inductive Response where
  | ok (image : String) (emotion : String) (confidence : ℚ) (mood_text : String)
  | notAuth
  | noImage
  | invalidFile
  | noFace
  | readError
  | serverError
deriving DecidableEq, Repr

/-- HTTP status of each `/api/process-emotion` response. -/
def Response.status : Response → Nat
  | .ok .. => 200
  | .notAuth => 401
  | .noImage => 400
  | .invalidFile => 400
  | .noFace => 400
  | .readError => 500
  | .serverError => 500

/-- The `message` field of the error responses of `/api/process-emotion`
(the catch-all 500 embeds the exception text, abstracted here). -/
def Response.message : Response → String
  | .ok .. => ""
  | .notAuth => "Not authenticated"
  | .noImage => "No image provided"
  | .invalidFile => "Invalid file"
  | .noFace => "No face detected in image"
  | .readError => "Error reading image"
  | .serverError => "Error"

/-- What one run of `process_emotion` produced: the response, the session
after the request, and the observable interactions — whether `temp_path`
was assigned, whether the temp file was written, whether the detection
adapter was invoked, whether the finally block attempted `os.remove`, and
whether the temp file still exists after the handler returned. -/
structure HandlerResult where
  response : Response
  session : Session
  tempPathSet : Bool
  tempWritten : Bool
  detectCalled : Bool
  removeAttempted : Bool
  tempExistsAfter : Bool
deriving Repr

/-- Outcome of the `try` body of `process_emotion`, before the `finally`
block runs. -/
structure TryOutcome where
  response : Response
  session : Session
  tempPathSet : Bool
  tempWritten : Bool
  detectCalled : Bool

/-- The `finally` block of `process_emotion` (app.py lines 157-163):
if `temp_path` is set and the file exists, try `os.remove`; a failure of
the removal is only printed, and neither response nor session change. -/
def runFinally (t : TryOutcome) (removeOk : Bool) : HandlerResult :=
  let attempt := t.tempPathSet && t.tempWritten
  { response := t.response,
    session := t.session,
    tempPathSet := t.tempPathSet,
    tempWritten := t.tempWritten,
    detectCalled := t.detectCalled,
    removeAttempted := attempt,
    tempExistsAfter := t.tempWritten && !(attempt && removeOk) }

/-- The `try` body of `process_emotion` (app.py lines 86-156), step by
step: auth gate, presence of the `image` field, filename validation,
`file.save` to the temp path, `recognize_emotion`, `generate_mood_content`,
`cv2.imread`, annotation and encoding, then the history append.  A raised
exception anywhere inside the body is caught by the handler's `except`
clause and becomes the catch-all 500 (`serverError`). -/
def processTry (s : Session) (req : Request) (env : Env) : TryOutcome :=
  if s.username.isNone then
    { response := .notAuth, session := s,
      tempPathSet := false, tempWritten := false, detectCalled := false }
  else if !req.hasImage then
    { response := .noImage, session := s,
      tempPathSet := false, tempWritten := false, detectCalled := false }
  else if req.filename = "" || !allowed_file req.filename then
    { response := .invalidFile, session := s,
      tempPathSet := false, tempWritten := false, detectCalled := false }
  else if !env.saveOk then
    { response := .serverError, session := s,
      tempPathSet := true, tempWritten := false, detectCalled := false }
  else
    match recognize_emotion (some env.tempPath) env.analyze with
    | .error _ =>
      { response := .serverError, session := s,
        tempPathSet := true, tempWritten := true, detectCalled := true }
    | .ok none =>
      { response := .noFace, session := s,
        tempPathSet := true, tempWritten := true, detectCalled := true }
    | .ok (some emotion_result) =>
      match (generate_mood_content emotion_result.label emotion_result.confidence env.chat).1 with
      | .error _ =>
        { response := .serverError, session := s,
          tempPathSet := true, tempWritten := true, detectCalled := true }
      | .ok mood_text =>
        if !env.imreadOk then
          { response := .readError, session := s,
            tempPathSet := true, tempWritten := true, detectCalled := true }
        else
          let filename := emotion_result.label ++ "_" ++ env.timestamp
          let confidence := emotion_result.confidence
          let history0 := s.emotion_history.getD []
          let history_entry : HistoryEntry :=
            { emotion := emotion_result.label,
              confidence := confidence,
              filename := filename }
          { response := .ok ("data:image/jpeg;base64," ++ env.imgBase64)
              emotion_result.label confidence mood_text,
            session := { s with emotion_history := some (history0 ++ [history_entry]) },
            tempPathSet := true, tempWritten := true, detectCalled := true }

/-- `process_emotion` (app.py lines 74-163): the try body followed by the
guaranteed finally block. -/
def process_emotion (s : Session) (req : Request) (env : Env) : HandlerResult :=
  runFinally (processTry s req env) env.removeOk

/-- HTTP request methods the `login` route accepts. -/
inductive Method where
  | get
  | post
deriving DecidableEq, Repr

/-- What the `login` view can return. -/
inductive LoginResponse where
  | redirectIndex
  | errorView (error : String)
  | loginView
deriving DecidableEq, Repr

/-- `login` (app.py lines 37-52): on POST, read the two form fields
(`none` models an absent field; `request.form.get` defaults it to `""`),
compare against the hardcoded credentials, and either establish the
session and redirect, or re-render the login view with an error.  On GET,
render the login view. -/
def login (method : Method) (form_username form_password : Option String)
    (s : Session) : LoginResponse × Session :=
  match method with
  | .get => (.loginView, s)
  | .post =>
    let username := form_username.getD ""
    let password := form_password.getD ""
    if username = "user" && password = "54321" then
      (.redirectIndex, { s with username := some username, emotion_history := some [] })
    else
      (.errorView "Invalid username or password", s)

/-- Responses of `/api/get-history`. -/
inductive HistResponse where
  | notAuth
  | ok (history : List HistoryEntry)
deriving DecidableEq, Repr

/-- HTTP status of a `/api/get-history` response. -/
def HistResponse.status : HistResponse → Nat
  | .notAuth => 401
  | .ok _ => 200

/-- `get_history` (app.py lines 165-172). -/
def get_history (s : Session) : HistResponse × Session :=
  if s.username.isNone then
    (.notAuth, s)
  else
    (.ok (s.emotion_history.getD []), s)

/-- Responses of `/api/clear-history`. -/
inductive ClearResponse where
  | notAuth
  | cleared
deriving DecidableEq, Repr

/-- HTTP status of a `/api/clear-history` response. -/
def ClearResponse.status : ClearResponse → Nat
  | .notAuth => 401
  | .cleared => 200

/-- `clear_history` (app.py lines 174-182). -/
def clear_history (s : Session) : ClearResponse × Session :=
  if s.username.isNone then
    (.notAuth, s)
  else
    (.cleared, { s with emotion_history := some [] })

/-- Responses of the page endpoints (`/`, `/index`, `/dashboards`). -/
inductive PageResponse where
  | redirectLogin
  | redirectIndex
  | pageIndex
  | pageDashboards
deriving DecidableEq, Repr

/-- HTTP status of a page-endpoint response (redirects are 302). -/
def PageResponse.status : PageResponse → Nat
  | .redirectLogin => 302
  | .redirectIndex => 302
  | .pageIndex => 200
  | .pageDashboards => 200

/-- `index` (app.py lines 60-65): session-gated page view. -/
def index (s : Session) : PageResponse :=
  if s.username.isNone then .redirectLogin else .pageIndex

/-- `dashboards` (app.py lines 67-72): session-gated page view. -/
def dashboards (s : Session) : PageResponse :=
  if s.username.isNone then .redirectLogin else .pageDashboards

/-- `home` (app.py lines 30-35). -/
def home (s : Session) : PageResponse :=
  if s.username.isSome then .redirectIndex else .redirectLogin

/-- `logout` (app.py lines 54-58): `session.clear()` then redirect. -/
def logout (_ : Session) : PageResponse × Session :=
  (.redirectLogin, { username := none, emotion_history := none })

/-! ### Concrete fixtures used to instantiate the theorems -/

/-- Fixture: a detected face whose dominant emotion scores 87.66. -/
def happyFace : FaceData :=
  { region := { x := 10, y := 20, w := 30, h := 40 },
    dominant_emotion := "happy",
    emotion := fun l => if l = "happy" then 8766/100 else 1/2 }

/-- Fixture: a freshly logged-in session. -/
def authSession : Session :=
  { username := some "user", emotion_history := some [] }

/-- Fixture: a session with no established login. -/
def anonSession : Session :=
  { username := none, emotion_history := none }

/-- Fixture: a request carrying an upload named `face.jpg`. -/
def jpgRequest : Request :=
  { hasImage := true, filename := "face.jpg" }

/-- Fixture: a request carrying an upload named `virus.exe`. -/
def exeRequest : Request :=
  { hasImage := true, filename := "virus.exe" }

/-- Fixture: an environment where every external interaction succeeds and
the analysis reports `happyFace`. -/
def okEnv : Env :=
  { tempPath := "/tmp/temp_0f.jpg",
    saveOk := true,
    analyze := fun _ => .ok [happyFace],
    chat := fun _ => some "mood text",
    imreadOk := true,
    imgBase64 := "QUJD",
    timestamp := "20251012_120000",
    removeOk := true }

end EmotionDetector

namespace EmotionDetector

/-! ### Theorems -/

/-- C1: a login POST establishes a session (username set, empty history)
if and only if the submitted pair is exactly `("user", "54321")`; every
other pair re-renders the login view with an error and leaves the session
unchanged. -/
theorem login_establishes_session_iff (u p : String) (s : Session) :
    (((login .post (some u) (some p) s).1 = LoginResponse.redirectIndex ∧
      (login .post (some u) (some p) s).2 =
        { username := some u, emotion_history := some [] }) ↔
      (u = "user" ∧ p = "54321")) ∧
    (¬(u = "user" ∧ p = "54321") →
      (login .post (some u) (some p) s).1 =
        LoginResponse.errorView "Invalid username or password" ∧
      (login .post (some u) (some p) s).2 = s) := by
  unfold login
  by_cases hu : u = "user" <;> by_cases hp : p = "54321" <;>
    simp [hu, hp, Session.mk.injEq]

/-- Witness for C1: the fixed pair succeeds, a wrong password fails. -/
theorem login_establishes_session_iff_witness :
    (login .post (some "user") (some "54321") anonSession).1 =
      LoginResponse.redirectIndex ∧
    (login .post (some "user") (some "guess") anonSession).1 =
      LoginResponse.errorView "Invalid username or password" := by
  constructor
  · exact ((login_establishes_session_iff "user" "54321" anonSession).1.mpr
      ⟨rfl, rfl⟩).1
  · exact ((login_establishes_session_iff "user" "guess" anonSession).2
      (by simp)).1

/-- C7: in an authenticated session, `clear_history` reports success and a
following `get_history` returns the empty sequence. -/
theorem clear_then_get_empty (s : Session) (u : String)
    (h : s.username = some u) :
    (clear_history s).1 = ClearResponse.cleared ∧
    (get_history (clear_history s).2).1 = HistResponse.ok [] := by
  unfold clear_history get_history
  simp [h]

/-- Witness for C7 at a session holding one entry. -/
theorem clear_then_get_empty_witness :
    (clear_history
        { username := some "user",
          emotion_history := some [⟨"sad", 42, "sad_x"⟩] }).1 =
      ClearResponse.cleared ∧
    (get_history (clear_history
        { username := some "user",
          emotion_history := some [⟨"sad", 42, "sad_x"⟩] }).2).1 =
      HistResponse.ok [] :=
  clear_then_get_empty
    { username := some "user", emotion_history := some [⟨"sad", 42, "sad_x"⟩] }
    "user" rfl

/-- C6 counterexample: `/index` is session-gated, yet an unauthenticated
request to it is answered with a redirect to the login page (HTTP 302),
not with a 401 authentication error. -/
theorem unauth_gated_endpoint_not_401_cex :
    index anonSession = PageResponse.redirectLogin ∧
    (index anonSession).status = 302 ∧
    (index anonSession).status ≠ 401 := by
  refine ⟨rfl, rfl, ?_⟩
  decide

/-- C6 (amended): every unauthenticated request to a session-gated API
endpoint (`process-emotion`, `get-history`, `clear-history`) is answered
with HTTP 401 and leaves the session unchanged, regardless of the request
body; the session-gated page endpoints (`/index`, `/dashboards`) instead
redirect to the login page. -/
theorem unauth_api_endpoints_401 (s : Session) (req : Request) (env : Env)
    (h : s.username = none) :
    (process_emotion s req env).response = Response.notAuth ∧
    ((process_emotion s req env).response).status = 401 ∧
    (process_emotion s req env).session = s ∧
    (get_history s).1 = HistResponse.notAuth ∧
    ((get_history s).1).status = 401 ∧
    (get_history s).2 = s ∧
    (clear_history s).1 = ClearResponse.notAuth ∧
    ((clear_history s).1).status = 401 ∧
    (clear_history s).2 = s ∧
    index s = PageResponse.redirectLogin ∧
    dashboards s = PageResponse.redirectLogin := by
  unfold process_emotion processTry runFinally get_history clear_history
    index dashboards
  simp [h, Response.status, HistResponse.status, ClearResponse.status]

/-- Witness for C6 (amended) at the empty session and a concrete body. -/
theorem unauth_api_endpoints_401_witness :
    (process_emotion anonSession jpgRequest okEnv).response =
      Response.notAuth ∧
    (get_history anonSession).1 = HistResponse.notAuth ∧
    (clear_history anonSession).1 = ClearResponse.notAuth := by
  have h := unauth_api_endpoints_401 anonSession jpgRequest okEnv rfl
  exact ⟨h.1, h.2.2.2.1, h.2.2.2.2.2.2.1⟩

/-- C4: an authenticated upload whose filename is empty, has no dot, or
whose last dot-delimited segment is (case-insensitively) outside
`{png, jpg, jpeg, gif, bmp}` is rejected with the 400 `Invalid file`
response; the detection adapter is not invoked, no temp file is written
and the session is unchanged. -/
theorem invalid_upload_rejected (s : Session) (req : Request) (env : Env)
    (u : String) (hu : s.username = some u) (himg : req.hasImage = true)
    (hbad : req.filename = "" ∨
      req.filename.data.contains (Char.ofNat 46) = false ∨
      ALLOWED_EXTENSIONS.contains (lowerAscii (lastDotSegment req.filename)) = false) :
    (process_emotion s req env).response = Response.invalidFile ∧
    ((process_emotion s req env).response).status = 400 ∧
    (process_emotion s req env).detectCalled = false ∧
    (process_emotion s req env).tempWritten = false ∧
    (process_emotion s req env).session = s := by
  have hfalse : allowed_file req.filename = false ∨ req.filename = "" := by
    rcases hbad with h | h | h
    · exact Or.inr h
    · exact Or.inl (by unfold allowed_file; rw [h, Bool.false_and])
    · exact Or.inl (by unfold allowed_file; rw [h, Bool.and_false])
  have hcond : (req.filename = "" || !allowed_file req.filename) = true := by
    rcases hfalse with h | h
    · simp [h]
    · simp [h]
  unfold process_emotion processTry runFinally
  simp [hu, himg, hcond, Response.status]

/-- Witness for C4 at the filename `virus.exe`. -/
theorem invalid_upload_rejected_witness :
    (process_emotion authSession exeRequest okEnv).response =
      Response.invalidFile ∧
    (process_emotion authSession exeRequest okEnv).detectCalled = false := by
  have h := invalid_upload_rejected authSession exeRequest okEnv "user" rfl rfl
    (Or.inr (Or.inr (by decide)))
  exact ⟨h.1, h.2.2.1⟩

/-- Helper, shared by several theorems: for an actual (non-`none`) image
path, `recognize_emotion` can never return the `None` no-face signal —
`enforce_detection=False` means the analysis output is unpacked whatever
it is. -/
lemma recognize_emotion_some_ne_ok_none (p : String)
    (analyze : String → Except Unit (List FaceData)) :
    recognize_emotion (some p) analyze ≠ .ok none := by
  unfold recognize_emotion
  cases h : analyze p with
  | error e => simp [h]
  | ok results => cases results <;> simp [h]

/-- Helper: whenever the `try` body wrote the temp file, the temp path had
been assigned. -/
lemma processTry_written_pathSet (s : Session) (req : Request) (env : Env) :
    (processTry s req env).tempWritten = true →
    (processTry s req env).tempPathSet = true := by
  unfold processTry
  repeat' split
  all_goals simp

/-- C5: whenever the temp file was written, the `finally` block attempts
its removal on every exit path, the file is gone when the removal
succeeds, and the outcome of the removal changes neither the response nor
the session. -/
theorem temp_file_cleanup (s : Session) (req : Request) (env : Env)
    (hw : (process_emotion s req env).tempWritten = true) :
    (process_emotion s req env).removeAttempted = true ∧
    (env.removeOk = true → (process_emotion s req env).tempExistsAfter = false) ∧
    (∀ b : Bool,
      (process_emotion s req { env with removeOk := b }).response =
        (process_emotion s req env).response ∧
      (process_emotion s req { env with removeOk := b }).session =
        (process_emotion s req env).session) := by
  have hw' : (processTry s req env).tempWritten = true := hw
  have hps : (processTry s req env).tempPathSet = true :=
    processTry_written_pathSet s req env hw'
  refine ⟨?_, ?_, ?_⟩
  · show ((processTry s req env).tempPathSet &&
      (processTry s req env).tempWritten) = true
    rw [hps, hw']
    rfl
  · intro hr
    show ((processTry s req env).tempWritten &&
      !(((processTry s req env).tempPathSet &&
          (processTry s req env).tempWritten) && env.removeOk)) = false
    rw [hps, hw', hr]
    rfl
  · intro b
    exact ⟨rfl, rfl⟩

/-- Witness for C5: a fully successful request wrote the temp file,
attempted the removal, and left no file behind. -/
theorem temp_file_cleanup_witness :
    (process_emotion authSession jpgRequest okEnv).removeAttempted = true ∧
    (process_emotion authSession jpgRequest okEnv).tempExistsAfter = false := by
  have h := temp_file_cleanup authSession jpgRequest okEnv rfl
  exact ⟨h.1, h.2.1 rfl⟩

/-- C2: the 400 `No face detected in image` response is unreachable: for
every session, request and environment, `process_emotion` never produces
it, because `recognize_emotion` is called on an actual temp path and
(`enforce_detection=False`) only reports the no-face signal for a `None`
path. -/
theorem noFace_response_unreachable (s : Session) (req : Request) (env : Env) :
    (process_emotion s req env).response ≠ Response.noFace := by
  have hrec := recognize_emotion_some_ne_ok_none env.tempPath env.analyze
  unfold process_emotion runFinally processTry
  repeat' split
  all_goals simp_all

/-- C10: `recognize_emotion` returns the no-face signal `None` exactly
when its input path is `None`; for an actual path whose analysis output is
non-empty, the result is built from the first element of that output. -/
theorem recognize_emotion_none_iff_path_none (img_path : Option String)
    (analyze : String → Except Unit (List FaceData)) :
    ((recognize_emotion img_path analyze = .ok none) ↔ img_path = none) ∧
    (∀ p f rest, img_path = some p → analyze p = .ok (f :: rest) →
      recognize_emotion img_path analyze =
        .ok (some { box := f.region, label := f.dominant_emotion,
                    confidence := f.emotion f.dominant_emotion })) := by
  refine ⟨⟨?_, ?_⟩, ?_⟩
  · intro h
    cases img_path with
    | none => rfl
    | some p => exact absurd h (recognize_emotion_some_ne_ok_none p analyze)
  · intro h
    subst h
    rfl
  · intro p f rest hp han
    subst hp
    simp [recognize_emotion, han]

/-- Witness for C10 at a concrete path and analysis output. -/
theorem recognize_emotion_none_iff_path_none_witness :
    recognize_emotion (some "/tmp/x.jpg") (fun _ => .ok [happyFace]) ≠
      .ok none ∧
    recognize_emotion (some "/tmp/x.jpg") (fun _ => .ok [happyFace]) =
      .ok (some { box := happyFace.region, label := "happy",
                  confidence := 8766/100 }) := by
  have h := recognize_emotion_none_iff_path_none (some "/tmp/x.jpg")
    (fun _ => .ok [happyFace])
  constructor
  · intro hc
    exact Option.noConfusion (h.1.mp hc)
  · exact h.2 "/tmp/x.jpg" happyFace [] rfl rfl

/-- C8: `get_history` returns the session's history verbatim (insertion
order, unfiltered) without touching the session; `process_emotion` either
leaves the history untouched or appends exactly one entry at its end,
preserving every existing entry; `clear_history` is the only operation
that resets it. -/
theorem history_verbatim_append_only (s : Session) (req : Request)
    (env : Env) (u : String) :
    (s.username = some u →
      (get_history s).1 = HistResponse.ok (s.emotion_history.getD []) ∧
      (get_history s).2 = s) ∧
    ((process_emotion s req env).session.emotion_history = s.emotion_history ∨
      ∃ e : HistoryEntry,
        (process_emotion s req env).session.emotion_history =
          some (s.emotion_history.getD [] ++ [e])) ∧
    (s.username = some u → (clear_history s).2.emotion_history = some []) := by
  refine ⟨?_, ?_, ?_⟩
  · intro h
    unfold get_history
    simp [h]
  · unfold process_emotion runFinally processTry
    repeat' split
    all_goals simp
  · intro h
    unfold clear_history
    simp [h]

/-- Witness for C8 at a concrete session, request and environment. -/
theorem history_verbatim_append_only_witness :
    (get_history authSession).1 = HistResponse.ok [] ∧
    (clear_history authSession).2.emotion_history = some [] := by
  have h := history_verbatim_append_only authSession jpgRequest okEnv "user"
  exact ⟨(h.1 rfl).1, h.2.2 rfl⟩

/-- C3 counterexample: a successful detection with confidence 87.66 stores
exactly 87.66 in the appended history entry — not the rounded value
(88 to the nearest integer, 87.7 to one decimal), so the stored
`confidence` is the raw detection confidence, not a rounded one. -/
theorem history_confidence_not_rounded_cex :
    (process_emotion authSession jpgRequest okEnv).session.emotion_history =
      some [{ emotion := "happy", confidence := 8766/100,
              filename := "happy_20251012_120000" }] ∧
    (8766/100 : ℚ) ≠ ((round ((8766 : ℚ)/100) : ℤ) : ℚ) ∧
    (8766/100 : ℚ) ≠ ((round (((8766 : ℚ)/100) * 10) : ℤ) : ℚ) / 10 := by
  refine ⟨rfl, by norm_num [round_eq], by norm_num [round_eq]⟩

/-- C3 (amended): on the successful-detection path the handler returns the
detection's label and its confidence unchanged (so it lies in [0,100]
whenever the adapter's score does), and appends exactly one history entry
whose `emotion` is the detection label and whose `confidence` is the raw
(unrounded) detection confidence. -/
theorem process_success_confidence_append (s : Session) (req : Request)
    (env : Env) (u mood : String) (f : FaceData) (rest : List FaceData)
    (hu : s.username = some u) (himg : req.hasImage = true)
    (hname : ¬ req.filename = "")
    (hext : allowed_file req.filename = true)
    (hsave : env.saveOk = true)
    (han : env.analyze env.tempPath = .ok (f :: rest))
    (hchat : env.chat
      { model := "gemma3:1b", systemContent := system_message,
        userContent := mood_prompt f.dominant_emotion (f.emotion f.dominant_emotion),
        temperature := 7/10 } = some mood)
    (hread : env.imreadOk = true)
    (h0 : 0 ≤ f.emotion f.dominant_emotion)
    (h100 : f.emotion f.dominant_emotion ≤ 100) :
    (process_emotion s req env).response =
      Response.ok ("data:image/jpeg;base64," ++ env.imgBase64)
        f.dominant_emotion (f.emotion f.dominant_emotion) mood ∧
    0 ≤ f.emotion f.dominant_emotion ∧ f.emotion f.dominant_emotion ≤ 100 ∧
    (process_emotion s req env).session.emotion_history =
      some (s.emotion_history.getD [] ++
        [{ emotion := f.dominant_emotion,
           confidence := f.emotion f.dominant_emotion,
           filename := f.dominant_emotion ++ "_" ++ env.timestamp }]) := by
  unfold process_emotion runFinally processTry recognize_emotion
    generate_mood_content
  simp [hu, himg, hname, hext, hsave, han, hchat, hread, h0, h100]

/-- Witness for C3 (amended) at the 87.66-confidence fixture. -/
theorem process_success_confidence_append_witness :
    (process_emotion authSession jpgRequest okEnv).response =
      Response.ok "data:image/jpeg;base64,QUJD" "happy" (8766/100)
        "mood text" ∧
    (process_emotion authSession jpgRequest okEnv).session.emotion_history =
      some [{ emotion := "happy", confidence := 8766/100,
              filename := "happy_20251012_120000" }] := by
  have h := process_success_confidence_append authSession jpgRequest okEnv
    "user" "mood text" happyFace [] rfl rfl (by decide) (by decide) rfl rfl
    rfl rfl (by norm_num [happyFace]) (by norm_num [happyFace])
  exact ⟨h.1, h.2.2.2⟩

/-- C9: `generate_mood_content` invokes the chat adapter exactly once,
with the fixed model `gemma3:1b`, the fixed temperature 0.7 and the fixed
system message, and its user prompt names the emotion, names the
confidence formatted to one decimal place, asks for a 3-song playlist, a
short mood description, and forbids trailing questions or suggestions. -/
theorem generate_mood_content_single_fixed_call (e : String) (c : ℚ)
    (chat : ChatCall → Option String) :
    ∃ call : ChatCall,
      (generate_mood_content e c chat).2 = [call] ∧
      call.model = "gemma3:1b" ∧
      call.temperature = 7/10 ∧
      call.systemContent = system_message ∧
      call.userContent = mood_prompt e c ∧
      (∃ a b : String, mood_prompt e c = a ++ e ++ b) ∧
      (∃ a b : String, mood_prompt e c = a ++ fmt1 c ++ b) ∧
      (∃ a b : String, mood_prompt e c = a ++ "3-song playlist" ++ b) ∧
      (∃ a b : String,
        mood_prompt e c = a ++ "short description of the mood" ++ b) ∧
      (∃ a b : String,
        mood_prompt e c = a ++ "No final questions or suggestions." ++ b) := by
  refine ⟨{ model := "gemma3:1b", systemContent := system_message,
            userContent := mood_prompt e c, temperature := 7/10 },
    ?_, rfl, rfl, rfl, rfl, ?_, ?_, ?_, ?_, ?_⟩
  · simp only [generate_mood_content]
    split <;> rfl
  · refine ⟨"The detected emotion is ",
      ". Suggest a " ++ ("3-song playlist" ++
      (" that matches it. Start by saying: " ++ (apos ++
      ("Tonight" ++ (apos ++ ("s vibe is " ++ (e ++ (". I" ++ (apos ++ ("m " ++
      (fmt1 c ++
      ("% sure about it... (here give a " ++ ("short description of the mood" ++
      (")... For that reason, here are some songs to match the mood." ++
      (apos ++
      (" and then give the playlist you suggest. " ++
      "No final questions or suggestions.")))))))))))))))), ?_⟩
    simp only [mood_prompt, String.append_assoc]
  · refine ⟨"The detected emotion is " ++ (e ++
      (". Suggest a " ++ ("3-song playlist" ++
      (" that matches it. Start by saying: " ++ (apos ++
      ("Tonight" ++ (apos ++ ("s vibe is " ++ (e ++ (". I" ++ (apos ++
      "m "))))))))))),
      "% sure about it... (here give a " ++ ("short description of the mood" ++
      (")... For that reason, here are some songs to match the mood." ++
      (apos ++
      (" and then give the playlist you suggest. " ++
      "No final questions or suggestions.")))), ?_⟩
    simp only [mood_prompt, String.append_assoc]
  · refine ⟨"The detected emotion is " ++ (e ++ ". Suggest a "),
      " that matches it. Start by saying: " ++ (apos ++
      ("Tonight" ++ (apos ++ ("s vibe is " ++ (e ++ (". I" ++ (apos ++ ("m " ++
      (fmt1 c ++
      ("% sure about it... (here give a " ++ ("short description of the mood" ++
      (")... For that reason, here are some songs to match the mood." ++
      (apos ++
      (" and then give the playlist you suggest. " ++
      "No final questions or suggestions.")))))))))))))), ?_⟩
    simp only [mood_prompt, String.append_assoc]
  · refine ⟨"The detected emotion is " ++ (e ++
      (". Suggest a " ++ ("3-song playlist" ++
      (" that matches it. Start by saying: " ++ (apos ++
      ("Tonight" ++ (apos ++ ("s vibe is " ++ (e ++ (". I" ++ (apos ++ ("m " ++
      (fmt1 c ++ "% sure about it... (here give a "))))))))))))),
      ")... For that reason, here are some songs to match the mood." ++
      (apos ++
      (" and then give the playlist you suggest. " ++
      "No final questions or suggestions.")), ?_⟩
    simp only [mood_prompt, String.append_assoc]
  · refine ⟨"The detected emotion is " ++ (e ++
      (". Suggest a " ++ ("3-song playlist" ++
      (" that matches it. Start by saying: " ++ (apos ++
      ("Tonight" ++ (apos ++ ("s vibe is " ++ (e ++ (". I" ++ (apos ++ ("m " ++
      (fmt1 c ++
      ("% sure about it... (here give a " ++ ("short description of the mood" ++
      (")... For that reason, here are some songs to match the mood." ++
      (apos ++
      " and then give the playlist you suggest. "))))))))))))))))),
      "", ?_⟩
    simp only [mood_prompt, String.append_assoc, String.append_empty]

end EmotionDetector
